import Mathlib

/-!
Verification of the Lead Assignment & Scoring Engine
(`app/services/lead_scoring.py`, `app/services/lead_assignment.py`,
`app/services/lead_services.py`, `app/schemas/lead_update.py`).

The Python services are shallowly embedded: dictionaries become structures
with `Option` fields (a missing key is `none`), SQLAlchemy tables become
lists of records inside a `DB` structure, timestamps become integers
(seconds), and the session/commit discipline is made explicit by functions
returning `Except` — an exception raised before `commit` leaves the
committed database unchanged.
-/

namespace ThinkRealty

/-! ## Scoring engine (`app/services/lead_scoring.py`) -/

/-- Python truthiness of an optional string (`None` and `""` are falsy). -/
def pyTruthyStr : Option String → Bool
  | some s => s != ""
  | none => false

/-- `x or 0` for an optional integer (Python: `None` and `0` are falsy). -/
def pyOrZero : Option Int → Int
  | none => 0
  | some v => if v == 0 then 0 else v

/-- The `source_weights` dict of `calculate_lead_score` with its
default value 50 (`source_weights.get(source, 50)`). -/
def source_weights (s : String) : Int :=
  if s == "bayut" then 90
  else if s == "propertyFinder" then 85
  else if s == "website" then 80
  else if s == "dubizzle" then 70
  else if s == "walk_in" then 75
  else if s == "referral" then 82
  else 50

/-- Lookup of the source weight when the `source_type` key may be absent. -/
def sourceWeight : Option String → Int
  | some s => source_weights s
  | none => 50

/-- The fields of `lead_data` read by `calculate_lead_score`. -/
structure LeadProfile where
  budget_max : Option Int := none
  nationality : Option String := none
  property_type : Option String := none
  deriving DecidableEq

/-- The fields of `source_details` read by `calculate_lead_score`. -/
structure SourceInfo where
  source_type : Option String := none
  response_time_minutes : Option Int := none
  referrer_agent_id : Option String := none
  deriving DecidableEq

/-- `LeadScoringEngine.calculate_lead_score`: initial score of a new lead
from profile and source, accumulated exactly as in the source and clamped
to [0, 100] at the end. -/
def calculate_lead_score (lead_data : LeadProfile) (source_details : SourceInfo) : Int :=
  let score : Int := 0
  -- Budget
  let budget_max := lead_data.budget_max.getD 0
  let score :=
    if budget_max > 1500000 then score + 15
    else if budget_max > 1000000 then score + 8
    else if budget_max < 500000 then score - 5
    else score
  -- Source quality, scaled down by integer division
  let score := score + sourceWeight source_details.source_type / 10
  -- Nationality
  let score :=
    if lead_data.nationality == some "UAE" then score + 10
    else if lead_data.nationality.any
        (fun n => (["KSA", "Kuwait", "Oman", "Bahrain", "Qatar"]).contains n) then score + 5
    else score
  -- Property type preference
  let score :=
    if lead_data.property_type == some "villa" then score + 5
    else if lead_data.property_type == some "apartment" then score + 3
    else if lead_data.property_type == some "commercial" then score - 3
    else score
  -- Response time to initial contact
  let score :=
    match source_details.response_time_minutes with
    | some rt => if rt < 60 then score + 10 else if rt < 1440 then score + 5 else score
    | none => score
  -- Referral bonus
  let score := if pyTruthyStr source_details.referrer_agent_id then score + 5 else score
  -- Clamp between 0 and 100
  max 0 (min score 100)

/-- `timedelta(days=7)` in seconds. -/
def sevenDaysSecs : Int := 7 * 86400

/-- The inactivity test of `update_lead_score`
(`last_activity_at and last_activity_at < datetime.utcnow() - timedelta(days=7)`;
a datetime value is always truthy). -/
def staleCheck (last : Option Int) (now : Int) : Bool :=
  match last with
  | some t => t < now - sevenDaysSecs
  | none => false

/-- The keys of `activity_data` read by `update_lead_score`. -/
structure ActivityData where
  type : Option String := none
  outcome : Option String := none
  last_activity_at : Option Int := none
  deriving DecidableEq

/-- The `score_delta` accumulation of `update_lead_score`, statement by
statement. -/
def deltaSeq (a : ActivityData) (now : Int) : Int :=
  let d0 : Int := 0
  -- Outcome effects
  let d1 :=
    if a.outcome == some "positive" then d0 + 5
    else if a.outcome == some "negative" then d0 - 5
    else d0
  -- Activity type effects
  let d2 := if a.type == some "viewing" then d1 + 10 else d1
  let d3 := if a.type == some "offer_made" then d2 + 20 else d2
  -- Inactivity penalty
  if staleCheck a.last_activity_at now then d3 - 10 else d3

/-- `LeadScoringEngine.update_lead_score`: the current score is fetched
(`scalar_one_or_none() or 0`), the delta added, and the result clamped to
[0, 100] before being persisted and returned. -/
def update_lead_score (current : Option Int) (a : ActivityData) (now : Int) : Int :=
  let score_delta := deltaSeq a now
  let cur := pyOrZero current
  max 0 (min 100 (cur + score_delta))

/-- The score delta as the spec words it: an order-independent sum of the
individual rule contributions (+5 positive / -5 negative outcome,
+10 viewing, +20 offer_made, -10 when inactive for more than 7 days). -/
def scoreDeltaSpec (a : ActivityData) (now : Int) : Int :=
  (if a.outcome == some "positive" then (5 : Int)
   else if a.outcome == some "negative" then -5 else 0)
  + (if a.type == some "viewing" then 10 else 0)
  + (if a.type == some "offer_made" then 20 else 0)
  + (if staleCheck a.last_activity_at now then -10 else 0)

/-- The activity sub-schema of the public lead-update interface
(`app/schemas/lead_update.py`, `LeadActivityUpdate`): exactly the fields
type, notes, outcome, next_follow_up. -/
structure LeadActivityUpdate where
  type : String
  notes : Option String := none
  outcome : Option String := none
  next_follow_up : Option Int := none
  deriving DecidableEq

/-- `request.activity.dict()` as consumed by `update_lead_score`
(`lead_services.py`, step 5): the dict holds the four schema keys only,
so `activity_data.get("last_activity_at")` yields `None`. -/
def activityDict (u : LeadActivityUpdate) : ActivityData :=
  { type := some u.type, outcome := u.outcome, last_activity_at := none }

lemma deltaSeq_eq_spec (a : ActivityData) (now : Int) :
    deltaSeq a now = scoreDeltaSpec a now := by
  unfold deltaSeq scoreDeltaSpec
  dsimp only
  split_ifs <;> omega

lemma pyOrZero_some (v : Int) : pyOrZero (some v) = v := by
  unfold pyOrZero
  split <;> simp_all

lemma clamp_nonneg (x : Int) : 0 ≤ max 0 (min 100 x) := le_max_left 0 _

lemma clamp_le_100 (x : Int) : max 0 (min 100 x) ≤ 100 :=
  max_le (by norm_num) (min_le_left 100 x)

/-! ## Assignment manager (`app/services/lead_assignment.py`)

Database tables (`app/models/`) as lists of records.  ORM attribute
access during query construction is modeled explicitly: `Agent.<name>`
for a `name` the model does not declare is the `AttributeError` the
statement construction raises, before any query executes. -/

/-- A row of the `agents` table exactly as `models/agent.py` declares it:
`agent_id, full_name, email, phone, specialization, preferred_areas,
is_active, created_at, updated_at`.  The model defines no `language`
column. -/
structure AgentRec where
  agent_id : Nat
  full_name : String
  email : String := ""
  phone : String
  specialization : Option String := none
  preferred_areas : Option (List String) := none
  is_active : Bool := true
  created_at : Int := 0
  updated_at : Int := 0
  deriving DecidableEq

/-- A row of the `leads` table (the fields the assignment queries read). -/
structure LeadRec where
  lead_id : Nat
  status : String
  deriving DecidableEq

/-- A row of the `lead_assignments` table. -/
structure AssignmentRec where
  assignment_id : Nat
  lead_id : Nat
  agent_id : Nat
  reassigned : Bool
  reason : String
  deriving DecidableEq

/-- A row of the `agent_performance_metrics` table (the columns the
weight subquery of `find_best_agent` names; `conversion_rate` is
nullable). -/
structure PerfMetric where
  agent_id : Nat
  date : Nat
  conversion_rate : Option Int := none
  deriving DecidableEq

/-- The database state seen by the assignment manager. -/
structure DB where
  agents : List AgentRec := []
  leads : List LeadRec := []
  assignments : List AssignmentRec := []
  metrics : List PerfMetric := []
  deriving DecidableEq

/-- `Lead.status.notin_(["converted", "lost"])`. -/
def notTerminal (st : String) : Bool :=
  !(st == "converted" || st == "lost")

/-- Number of `leads` rows joined to one assignment row
(`join(Lead, Lead.lead_id == LeadAssignment.lead_id)` with the status
condition). -/
def joinedLiveLeads (db : DB) (lid : Nat) : Nat :=
  (db.leads.filter (fun l => l.lead_id == lid && notTerminal l.status)).length

/-- `LeadAssignmentManager.get_agent_workload` (and the identical scalar
subqueries of `assign_lead` / `find_best_agent`): count of assignment
rows of the agent with `reassigned == False` joined to a lead whose
status is not converted/lost. -/
def get_agent_workload (db : DB) (aid : Nat) : Nat :=
  ((db.assignments.filter (fun a => a.agent_id == aid && a.reassigned == false)).map
    (fun a => joinedLiveLeads db a.lead_id)).sum

/-- The attribute names the `Agent` ORM class defines — its columns from
`models/agent.py`. -/
def agentModelColumns : List String :=
  ["agent_id", "full_name", "email", "phone", "specialization", "preferred_areas",
   "is_active", "created_at", "updated_at"]

/-- Python evaluates the arguments of `select(...)` left to right; the
first `Agent.<name>` whose name is not an attribute of the model raises
`AttributeError` while the statement is being built, before any query
runs. -/
def firstMissingAgentColumn (cols : List String) : Option String :=
  cols.find? (fun c => !agentModelColumns.contains c)

/-- The `Agent` columns named by the `assign_lead` select
(`lead_assignment.py` lines 82-91), in source order. -/
def assignSelectColumns : List String :=
  ["agent_id", "full_name", "phone", "language", "specialization"]

/-- The `Agent` columns named by the `find_best_agent` select
(`lead_assignment.py` lines 239-249), in source order (the coalesced
weight label follows them). -/
def findBestSelectColumns : List String :=
  ["agent_id", "full_name", "phone", "language", "specialization"]

/-- The keys of `lead_data` read by `assign_lead` / `find_best_agent`. -/
structure LeadQuery where
  property_type : Option String := none
  preferred_areas : List String := []
  language_preference : Option String := none
  deriving DecidableEq

/-- The dict returned by `assign_lead` / `find_best_agent`
(`{"agent_id": ..., "full_name": ..., "phone": ...}`). -/
structure Chosen where
  agent_id : Nat
  full_name : String
  phone : String
  deriving DecidableEq

/-- The in-memory `itertools.cycle` state (`self._rr_cycle`), holding a
captured pool and a cursor.  On every execution path the selection query
crashes before a cycle is created, so this state only ever stays at its
initial `None`. -/
structure RRCycle where
  pool : List Chosen
  idx : Nat
  deriving DecidableEq

/-- `LeadAssignmentManager.find_best_agent`: building the select
evaluates `Agent.agent_id, Agent.full_name, Agent.phone, Agent.language,
Agent.specialization` (lines 240-245).  The `Agent` model declares no
`language` attribute, so the construction raises `AttributeError` at
line 244 on every call, before the query runs; the workload filter,
specialization / areas / language narrowing, weighted pool and
round-robin code at lines 250-298 is unreachable and never executes. -/
def find_best_agent (db : DB) (lead_data : LeadQuery) (rr : Option RRCycle) :
    Except String (Option Chosen × Option RRCycle) :=
  match firstMissingAgentColumn findBestSelectColumns with
  | some c => .error ("AttributeError: " ++ c)
  | none =>
    -- Never reached: "language" is in the column list and not on the
    -- model; totality still requires a branch value.
    .ok (none, rr)

/-- `LeadAssignmentManager.assign_lead`: its own select (lines 82-91)
likewise evaluates `Agent.language` (line 87) and raises
`AttributeError` on every call — before the empty-pool check at lines
95-96, the local filtering, or the `find_best_agent` call at line 122
(from which the chosen agent would come) can run. -/
def assign_lead (db : DB) (lead_data : LeadQuery) (rr : Option RRCycle) :
    Except String (Option Chosen × Option RRCycle) :=
  match firstMissingAgentColumn assignSelectColumns with
  | some c => .error ("AttributeError: " ++ c)
  | none =>
    -- Never reached, as above; the source would take the chosen agent
    -- from find_best_agent.
    find_best_agent db lead_data rr

/-- The `WHERE lead_id = ... AND reassigned = FALSE` condition. -/
def isActiveFor (lid : Nat) (a : AssignmentRec) : Bool :=
  a.lead_id == lid && a.reassigned == false

/-- The per-row effect of the supersede `UPDATE`. -/
def supersedeRow (lid : Nat) (a : AssignmentRec) : AssignmentRec :=
  if isActiveFor lid a then { a with reassigned := true } else a

/-- Step 1 of `reassign_lead`: `UPDATE lead_assignments SET reassigned =
TRUE WHERE lead_id = ... AND reassigned = FALSE`. -/
def supersedeActive (db : DB) (lid : Nat) : DB :=
  { db with assignments := db.assignments.map (supersedeRow lid) }

/-- The manual-target lookup of `reassign_lead` step 2. -/
def lookupAgentChosen (db : DB) (aid : Nat) : Option Chosen :=
  match db.agents.find? (fun ag => ag.agent_id == aid) with
  | some ag => some ⟨ag.agent_id, ag.full_name, ag.phone⟩
  | none => none

/-- `LeadAssignmentManager.reassign_lead` over an explicit session: the
supersede update and the insert are pending writes of one transaction,
committed together at the end; a raised `ValueError` propagates before
`commit`, so `.error` means the committed database is unchanged.
`newId` stands for the fresh `uuid4()` of the inserted row. -/
def reassign_lead (db : DB) (lid : Nat) (reason : String) (target : Option Nat)
    (newId : Nat) (rr : Option RRCycle) :
    Except String (DB × Chosen × Option RRCycle) :=
  -- Step 1: mark old assignment as reassigned (pending, uncommitted)
  let pending := supersedeActive db lid
  -- Step 2: determine new agent
  match target with
  | some t =>
    match lookupAgentChosen pending t with
    | none => .error "Agent not found"
    | some ag =>
      -- Step 3: insert new assignment, then commit
      .ok ({ pending with
              assignments := pending.assignments ++ [⟨newId, lid, ag.agent_id, false, reason⟩] },
           ag, rr)
  | none =>
    match assign_lead pending {} rr with
    -- the AttributeError from assign_lead propagates; commit never reached
    | .error e => .error e
    | .ok (none, _) => .error "No eligible agent available for reassignment"
    | .ok (some ag, rr1) =>
      .ok ({ pending with
              assignments := pending.assignments ++ [⟨newId, lid, ag.agent_id, false, reason⟩] },
           ag, rr1)

/-- The committed database after a `reassign_lead` call: on success the
transaction commits its writes, on an exception nothing is committed. -/
def committedAfterReassign (db : DB) (lid : Nat) (reason : String) (target : Option Nat)
    (newId : Nat) (rr : Option RRCycle) : DB :=
  match reassign_lead db lid reason target newId rr with
  | .ok (db1, _, _) => db1
  | .error _ => db

/-! ## Capture flow (`LeadServices.capture_lead_service`, step 5) -/

/-- The agent-assignment stage of `capture_lead_service`: call
`assign_lead`; on `None` raise `HTTPException(400, "No suitable agent
available")` — which propagates before the later `db.commit()`, so
nothing of the request is committed — otherwise add the
`LeadAssignment` row (reason "initial assignment") for the new lead.
`newId` stands for the fresh `uuid4()` of that row. -/
def captureAssignPhase (db : DB) (lid : Nat) (lead_data : LeadQuery) (newId : Nat)
    (rr : Option RRCycle) : Except String (DB × Chosen × Option RRCycle) :=
  match assign_lead db lead_data rr with
  -- an exception raised inside assign_lead propagates; no commit happens
  | .error e => .error e
  | .ok (none, _) => .error "No suitable agent available"
  | .ok (some ag, rr1) =>
    .ok ({ db with assignments := db.assignments ++ [⟨newId, lid, ag.agent_id, false, "initial assignment"⟩] },
         ag, rr1)

/-- The committed database after the capture assignment stage: the raised
exception reaches the caller before any commit. -/
def committedAfterCapture (db : DB) (lid : Nat) (lead_data : LeadQuery) (newId : Nat)
    (rr : Option RRCycle) : DB :=
  match captureAssignPhase db lid lead_data newId rr with
  | .ok (db1, _, _) => db1
  | .error _ => db

/-! ## Repeated selection runs (for the round-robin properties) -/

/-- `n` successive `find_best_agent` calls on one
`LeadAssignmentManager` instance, threading the in-memory cycle; a
raised exception leaves `self._rr_cycle` untouched. -/
def runSelector (db : DB) (lead_data : LeadQuery) :
    Nat → Option RRCycle → List (Except String (Option Chosen)) × Option RRCycle
  | 0, rr => ([], rr)
  | n + 1, rr =>
    match find_best_agent db lead_data rr with
    | .error e =>
      let rest := runSelector db lead_data n rr
      (.error e :: rest.1, rest.2)
    | .ok (c, rr1) =>
      let rest := runSelector db lead_data n rr1
      (.ok c :: rest.1, rest.2)

/-! ## Concrete database states used as test fixtures -/

/-- Agent A (id 1). -/
def agentA : AgentRec := { agent_id := 1, full_name := "A", phone := "pA" }

/-- Agent B (id 2). -/
def agentB : AgentRec := { agent_id := 2, full_name := "B", phone := "pB" }

/-- Fixture for the weighted-fairness run: agents A and B, one metric row
that would give A the conversion-rate weight 3; B has no metric row. -/
def dbWeighted : DB := { agents := [agentA, agentB], metrics := [⟨1, 1, some 3⟩] }

/-- Fixture whose only agent is A. -/
def dbOnlyA : DB := { agents := [agentA] }

/-- Fixture whose only agent is B. -/
def dbOnlyB : DB := { agents := [agentB] }

/-- Fixture with agent A holding 50 active assignments of 50 live leads:
the agent sits exactly at the capacity ceiling. -/
def dbSaturated : DB :=
  { agents := [agentA],
    leads := (List.range 50).map (fun i => ⟨i, "new"⟩),
    assignments := (List.range 50).map (fun i => ⟨i, i, 1, false, "initial assignment"⟩) }

/-- Fixture with agent A holding 49 active assignments of 49 live leads:
one under the capacity ceiling. -/
def db49 : DB :=
  { agents := [agentA],
    leads := (List.range 49).map (fun i => ⟨i, "new"⟩),
    assignments := (List.range 49).map (fun i => ⟨i, i, 1, false, "initial assignment"⟩) }

/-- Fixture whose only agent specializes in apartments. -/
def dbApartmentOnly : DB :=
  { agents := [{ agent_id := 3, full_name := "C", phone := "pC",
                 specialization := some "apartment" }] }

/-- Fixture for reassignment: two agents, one live lead (id 10) with one
active assignment to agent A. -/
def dbReassign : DB :=
  { agents := [agentA, agentB],
    leads := [⟨10, "contacted"⟩],
    assignments := [⟨100, 10, 1, false, "initial assignment"⟩] }

/-- The database expected after reassigning lead 10 to agent B manually. -/
def dbReassigned : DB :=
  { agents := [agentA, agentB],
    leads := [⟨10, "contacted"⟩],
    assignments := [⟨100, 10, 1, true, "initial assignment"⟩,
                    ⟨101, 10, 2, false, "supervisor change"⟩] }

/-- C1: for every current lead score s ∈ [0,100] and every activity input,
`update_lead_score` returns `clamp(s + sum(deltas), 0, 100)`, where the
deltas are +5 for outcome "positive", -5 for "negative", +10 for activity
type "viewing", +20 for "offer_made", and -10 when the last-activity
timestamp is more than 7 days in the past; the result stays inside
[0,100], with clamping at both boundaries (98 with +20 gives 100; 3 with
-15 gives 0). -/
theorem update_lead_score_clamp (s : Int) (h0 : 0 ≤ s) (h1 : s ≤ 100)
    (a : ActivityData) (now : Int) :
    update_lead_score (some s) a now = max 0 (min 100 (s + scoreDeltaSpec a now)) ∧
    0 ≤ update_lead_score (some s) a now ∧
    update_lead_score (some s) a now ≤ 100 ∧
    update_lead_score (some 98) ⟨some "offer_made", none, none⟩ 0 = 100 ∧
    update_lead_score (some 3) ⟨none, some "negative", some 0⟩ (8 * 86400) = 0 := by
  have key : update_lead_score (some s) a now = max 0 (min 100 (s + scoreDeltaSpec a now)) := by
    unfold update_lead_score
    dsimp only
    rw [deltaSeq_eq_spec, pyOrZero_some]
  refine ⟨key, ?_, ?_, by decide, by decide⟩
  · rw [key]; exact clamp_nonneg _
  · rw [key]; exact clamp_le_100 _

/-- Witness for C1 at s = 98 with an "offer_made" activity. -/
theorem update_lead_score_clamp_witness :
    (0 : Int) ≤ 98 ∧ (98 : Int) ≤ 100 ∧
    update_lead_score (some 98) ⟨some "offer_made", none, none⟩ 0 =
      max 0 (min 100 (98 + scoreDeltaSpec ⟨some "offer_made", none, none⟩ 0)) :=
  ⟨by decide, by decide,
    (update_lead_score_clamp 98 (by decide) (by decide) ⟨some "offer_made", none, none⟩ 0).1⟩

/-- C2: a lead with budget_max = 2,000,000, nationality "UAE", property
type "villa", source "bayut", response_time_minutes = 30 and a (truthy)
referrer_agent_id present scores exactly 15 + 9 + 10 + 5 + 10 + 5 = 54,
the clamp being a no-op. -/
theorem calculate_lead_score_example (rid : String) (h : rid ≠ "") :
    calculate_lead_score ⟨some 2000000, some "UAE", some "villa"⟩
      ⟨some "bayut", some 30, some rid⟩ = 54 := by
  have ht : pyTruthyStr (some rid) = true := by
    unfold pyTruthyStr
    simpa using h
  unfold calculate_lead_score
  dsimp only
  rw [ht]
  decide

/-- Witness for C2 with a concrete referrer id. -/
theorem calculate_lead_score_example_witness :
    "agent-7" ≠ "" ∧
    calculate_lead_score ⟨some 2000000, some "UAE", some "villa"⟩
      ⟨some "bayut", some 30, some "agent-7"⟩ = 54 :=
  ⟨by decide, calculate_lead_score_example "agent-7" (by decide)⟩

/-! ## Helper lemmas -/

lemma assign_lead_error (db : DB) (lead_data : LeadQuery) (rr : Option RRCycle) :
    assign_lead db lead_data rr = .error "AttributeError: language" := rfl

lemma supersede_map_filter_nil (l : List AssignmentRec) (lid : Nat) :
    (l.map (supersedeRow lid)).filter (isActiveFor lid) = [] := by
  induction l with
  | nil => rfl
  | cons x xs ih =>
    simp only [List.map_cons, List.filter_cons]
    by_cases hx : isActiveFor lid x = true
    · have hafter : isActiveFor lid (supersedeRow lid x) = false := by
        unfold supersedeRow
        rw [if_pos hx]
        simp [isActiveFor]
      simp [hafter, ih]
    · have hR : supersedeRow lid x = x := by simp [supersedeRow, hx]
      simp [hR, hx, ih]

lemma reassign_ok_db (db : DB) (lid : Nat) (reason : String) (target : Option Nat)
    (newId : Nat) (rr : Option RRCycle) (db1 : DB) (ag : Chosen) (rr1 : Option RRCycle)
    (hok : reassign_lead db lid reason target newId rr = .ok (db1, ag, rr1)) :
    db1.assignments =
      db.assignments.map (supersedeRow lid) ++ [⟨newId, lid, ag.agent_id, false, reason⟩] := by
  unfold reassign_lead at hok
  cases target with
  | some t =>
    dsimp only at hok
    cases hl : lookupAgentChosen (supersedeActive db lid) t with
    | none => rw [hl] at hok; exact absurd hok (by simp)
    | some ag0 =>
      rw [hl] at hok
      simp only [Except.ok.injEq, Prod.mk.injEq] at hok
      obtain ⟨h1, h2, h3⟩ := hok
      subst h1 h2
      rfl
  | none =>
    dsimp only at hok
    rw [assign_lead_error] at hok
    simp at hok

/-- C3: after any completed (committed) `reassign_lead` call on a lead
that has at least one assignment, the lead has exactly one non-superseded
(`reassigned = False`) assignment — the newly inserted row — and every
assignment of the lead that was active before the call now carries
`reassigned = True`. -/
theorem reassign_exactly_one_active (db : DB) (lid : Nat) (reason : String)
    (target : Option Nat) (newId : Nat) (rr : Option RRCycle)
    (db1 : DB) (ag : Chosen) (rr1 : Option RRCycle)
    (hok : reassign_lead db lid reason target newId rr = .ok (db1, ag, rr1))
    (hprior : db.assignments.filter (fun a => a.lead_id == lid) ≠ []) :
    db1.assignments.filter (isActiveFor lid) =
      [⟨newId, lid, ag.agent_id, false, reason⟩] ∧
    ∀ a ∈ db.assignments, isActiveFor lid a = true →
      (⟨a.assignment_id, a.lead_id, a.agent_id, true, a.reason⟩ : AssignmentRec) ∈
        db1.assignments := by
  have hdb1 := reassign_ok_db db lid reason target newId rr db1 ag rr1 hok
  constructor
  · rw [hdb1, List.filter_append, supersede_map_filter_nil]
    simp [isActiveFor]
  · intro a ha hact
    rw [hdb1]
    apply List.mem_append_left
    have hrow : supersedeRow lid a =
        (⟨a.assignment_id, a.lead_id, a.agent_id, true, a.reason⟩ : AssignmentRec) := by
      simp [supersedeRow, hact]
    exact hrow ▸ List.mem_map_of_mem _ ha

/-- C9: a `reassign_lead` call with a manual target agent id that does
not exist raises `ValueError` ("Agent ... not found"), so `commit` is
never reached and the committed assignment state is unchanged. -/
theorem reassign_missing_target_unchanged (db : DB) (lid : Nat) (reason : String)
    (t : Nat) (newId : Nat) (rr : Option RRCycle)
    (h : ∀ ag ∈ db.agents, ag.agent_id ≠ t) :
    reassign_lead db lid reason (some t) newId rr = .error "Agent not found" ∧
    committedAfterReassign db lid reason (some t) newId rr = db := by
  have hfind : (supersedeActive db lid).agents.find? (fun ag => ag.agent_id == t) = none := by
    apply List.find?_eq_none.mpr
    intro x hx
    have hx2 : x ∈ db.agents := by simpa [supersedeActive] using hx
    simpa using h x hx2
  have hlook : lookupAgentChosen (supersedeActive db lid) t = none := by
    unfold lookupAgentChosen
    rw [hfind]
  have herr : reassign_lead db lid reason (some t) newId rr = .error "Agent not found" := by
    unfold reassign_lead
    dsimp only
    rw [hlook]
  refine ⟨herr, ?_⟩
  unfold committedAfterReassign
  rw [herr]

/-- C4 (code bug): the eligibility query does write `.where(subq < 50)`
with the fixed literal 50 — but the enclosing select also evaluates
`Agent.language`, which the `Agent` model does not define, so the query
is never constructed and no eligible pool exists for any workload.  At
an agent with 49 active leads (included, per the claim) and at one with
50 (excluded, per the claim), both selection entry points raise
`AttributeError` instead of computing a pool. -/
theorem capacity_selection_attribute_error :
    get_agent_workload db49 1 = 49 ∧
    get_agent_workload dbSaturated 1 = 50 ∧
    find_best_agent db49 {} none = .error "AttributeError: language" ∧
    find_best_agent dbSaturated {} none = .error "AttributeError: language" ∧
    assign_lead db49 {} none = .error "AttributeError: language" ∧
    assign_lead dbSaturated {} none = .error "AttributeError: language" :=
  ⟨by decide, by decide, rfl, rfl, rfl, rfl⟩

/-- C5 (code bug): the property-type fallback (`[...] or agents`,
`lead_assignment.py` lines 260-264) exists in the source but is
unreachable: the select construction at line 244 raises
`AttributeError` first on every call, so the eligibility filtering used
to choose the assigned agent never runs and never returns any pool,
full or empty.  Evaluated at a lead asking for "villa" against a sole
apartment specialist. -/
theorem property_fallback_unreachable :
    find_best_agent dbApartmentOnly { property_type := some "villa" } none =
      .error "AttributeError: language" ∧
    assign_lead dbApartmentOnly { property_type := some "villa" } none =
      .error "AttributeError: language" :=
  ⟨rfl, rfl⟩

/-- C8 (code bug): `assign_lead` raises `AttributeError` at
`Agent.language` (line 87) before its empty-pool check, also when the
sole agent sits at the 50-lead ceiling.  The condition surfaced to the
caller is therefore the `AttributeError`, not the documented
`HTTPException(400, "No suitable agent available")`; as the claim says,
no agent is returned and nothing is committed — the new lead keeps no
assignment row. -/
theorem capture_assign_attribute_error :
    get_agent_workload dbSaturated 1 = 50 ∧
    assign_lead dbSaturated {} none = .error "AttributeError: language" ∧
    captureAssignPhase dbSaturated 999 {} 500 none = .error "AttributeError: language" ∧
    captureAssignPhase dbSaturated 999 {} 500 none ≠ .error "No suitable agent available" ∧
    committedAfterCapture dbSaturated 999 {} 500 none = dbSaturated ∧
    ∀ a ∈ (committedAfterCapture dbSaturated 999 {} 500 none).assignments, a.lead_id ≠ 999 := by
  refine ⟨by decide, rfl, rfl, ?_, rfl, by decide⟩
  intro h
  rw [show captureAssignPhase dbSaturated 999 {} 500 none =
      .error "AttributeError: language" from rfl] at h
  exact absurd h (by simp)

/-- C10: an activity payload of the public lead-update interface
(`LeadActivityUpdate`: type, notes, outcome, next_follow_up only) passed
to `update_lead_score` as `request.activity.dict()` carries no
`last_activity_at` key, so the 7-day inactivity penalty never fires on
this path: the delta is determined solely by outcome and activity type,
and the updated score does not depend on the evaluation time. -/
theorem update_path_no_inactivity_penalty (u : LeadActivityUpdate) (cur : Option Int)
    (now now2 : Int) :
    staleCheck (activityDict u).last_activity_at now = false ∧
    scoreDeltaSpec (activityDict u) now =
      (if u.outcome == some "positive" then (5 : Int)
       else if u.outcome == some "negative" then -5 else 0)
      + (if u.type == "viewing" then 10 else 0)
      + (if u.type == "offer_made" then 20 else 0) ∧
    update_lead_score cur (activityDict u) now = update_lead_score cur (activityDict u) now2 := by
  have hbeq : ∀ x y : String, ((some x == some y) : Bool) = (x == y) := fun _ _ => rfl
  refine ⟨rfl, ?_, rfl⟩
  simp only [scoreDeltaSpec, activityDict, staleCheck, hbeq, Bool.false_eq_true, if_false,
    add_zero]

set_option maxRecDepth 10000

/-- C6 counterexample: two successive invocations whose eligible sets
would differ (first a database whose only agent is A, then one whose
only agent is B) both raise `AttributeError` at `Agent.language`: no
agent is chosen from the current eligible set — no agent is chosen at
all — and no selection state is rebuilt, or ever built. -/
theorem rr_state_rebuild_counterexample :
    find_best_agent dbOnlyA {} none = .error "AttributeError: language" ∧
    find_best_agent dbOnlyB {} none = .error "AttributeError: language" ∧
    ∀ c rr1, find_best_agent dbOnlyB {} none ≠ .ok (some c, rr1) := by
  refine ⟨rfl, rfl, ?_⟩
  intro c rr1 hc
  rw [show find_best_agent dbOnlyB {} none =
      .error "AttributeError: language" from rfl] at hc
  exact absurd hc (by simp)

/-- C6 (amended): `find_best_agent` never reaches its round-robin state:
every invocation — whatever the database, the lead data, or the existing
cycle state — raises `AttributeError` evaluating `Agent.language` while
constructing its selection query, so no selection state is ever built or
rebuilt and no agent is chosen. -/
theorem find_best_agent_never_selects (db : DB) (lead_data : LeadQuery)
    (rr : Option RRCycle) :
    find_best_agent db lead_data rr = .error "AttributeError: language" := rfl

/-- C7 (code bug): with the fixed agent set A (metric weight 3) and B
(no metric row) on one manager instance, all 40 successive selector
calls raise `AttributeError` at `Agent.language`: every call errors, no
call selects any agent (so A is not selected 3 times as often as B — no
30/10 split and no bounded-gap rotation exists), and the cycle state
never comes into being or advances. -/
theorem weighted_rr_run_crashes :
    (runSelector dbWeighted {} 40 none).1 =
      List.replicate 40 (.error "AttributeError: language") ∧
    (runSelector dbWeighted {} 40 none).2 = none ∧
    ∀ r ∈ (runSelector dbWeighted {} 40 none).1,
      r = .error "AttributeError: language" := by
  refine ⟨rfl, rfl, ?_⟩
  intro r hr
  rw [show (runSelector dbWeighted {} 40 none).1 =
      List.replicate 40 (.error "AttributeError: language") from rfl] at hr
  exact List.eq_of_mem_replicate hr

/-- Witness for C3: reassigning lead 10 from agent A to agent B. -/
theorem reassign_exactly_one_active_witness :
    reassign_lead dbReassign 10 "supervisor change" (some 2) 101 none =
      .ok (dbReassigned, ⟨2, "B", "pB"⟩, none) ∧
    dbReassign.assignments.filter (fun a => a.lead_id == 10) ≠ [] ∧
    (dbReassigned.assignments.filter (isActiveFor 10) =
        [⟨101, 10, 2, false, "supervisor change"⟩] ∧
     ∀ a ∈ dbReassign.assignments, isActiveFor 10 a = true →
       (⟨a.assignment_id, a.lead_id, a.agent_id, true, a.reason⟩ : AssignmentRec) ∈
         dbReassigned.assignments) :=
  ⟨by rfl, by decide,
    reassign_exactly_one_active dbReassign 10 "supervisor change" (some 2) 101 none
      dbReassigned ⟨2, "B", "pB"⟩ none (by rfl) (by decide)⟩

/-- Witness for C9: reassigning lead 10 to the nonexistent agent 99. -/
theorem reassign_missing_target_unchanged_witness :
    (∀ ag ∈ dbReassign.agents, ag.agent_id ≠ 99) ∧
    (reassign_lead dbReassign 10 "manual" (some 99) 101 none = .error "Agent not found" ∧
     committedAfterReassign dbReassign 10 "manual" (some 99) 101 none = dbReassign) :=
  ⟨by decide,
    reassign_missing_target_unchanged dbReassign 10 "manual" 99 101 none (by decide)⟩

end ThinkRealty
